import Mathlib

/-!
Verification of the connection-lifecycle and write-path core of a
single-client eventlog socket bridge (src/eventlog_socket.c).

The C source is shallowly embedded:
  * the shared cell `client_fd` becomes `ConnState` (an `Int`, `-1` = no client);
  * the `write(2)` syscall is driven by an oracle `List WriteRes`, each entry
    being either an error (`write` returned `-1`) or a count of bytes the
    kernel accepted; the embedded loop clamps the count to the requested
    size, as the kernel does;
  * `writer_write` returns the (unchanged) connection state, the exact byte
    sequence delivered to the socket, the number of `write` syscalls issued,
    and the boolean handed back to the producer;
  * the listener thread `listen_socket` becomes a labelled transition system
    over program points, driven by a list of external events (listen/accept/
    poll outcomes), with a history field `live` recording the descriptors
    published and not yet torn down;
  * `eventlog_socket_start` and `open_socket` become functions returning the
    list of externally visible actions they perform.
-/

namespace EventlogSocket

/-- The mutex-protected connection cell: the C global `client_fd`.
`-1` means no client is connected. -/
structure ConnState where
  client : Int
deriving DecidableEq

/-- Outcome of one `write(fd, buf, sz)` syscall: an error (`ret == -1`),
or `ret = r` bytes accepted by the kernel. -/
inductive WriteRes where
  | err : WriteRes
  | ok : Nat → WriteRes
deriving DecidableEq

/-- Result of `writer_write`: the connection state after the call, the bytes
actually delivered to the socket in order, the number of `write` syscalls
issued, and the boolean returned to the producer. -/
structure WriteOut where
  st : ConnState
  sent : List Nat
  calls : Nat
  result : Bool
deriving DecidableEq

/-- The loop body of `writer_write` (src/eventlog_socket.c lines 49-60):
`while (sz > 0) { ret = write(fd, eventlog, sz); if (ret == -1) return; sz -= ret; }`.
Note the C code passes the ORIGINAL pointer `eventlog` to every iteration, so
each syscall transmits a prefix of `buf`, never an advanced suffix.  The
oracle entry `ok r` is clamped to `min r sz` since the kernel accepts at most
`sz` bytes.  Returns `none` when the oracle is exhausted while `sz > 0`
(the loop would keep issuing syscalls beyond the modelled schedule). -/
def write_loop (buf : List Nat) : List WriteRes → Nat → Option (List Nat × Nat)
  | _, 0 => some ([], 0)
  | [], _ + 1 => none
  | WriteRes.err :: _, _ + 1 => some ([], 1)
  | WriteRes.ok r :: rest, sz + 1 =>
      let ret := min r (sz + 1)
      (write_loop buf rest (sz + 1 - ret)).map
        (fun p => (buf.take ret ++ p.1, p.2 + 1))

/-- `writer_write` (src/eventlog_socket.c lines 40-64).  Snapshots `client_fd`
under the lock; if `fd < 0` returns `true` at once with no syscall; otherwise
runs the write loop.  Every path returns `true` to the producer, and no path
assigns to `client_fd`. -/
def writer_write (s : ConnState) (buf : List Nat) (sz : Nat)
    (oracle : List WriteRes) : Option WriteOut :=
  if s.client < 0 then
    some ⟨s, [], 0, true⟩
  else
    (write_loop buf oracle sz).map (fun p => ⟨s, p.1, p.2, true⟩)

/-- `writer_stop` (src/eventlog_socket.c lines 71-79): under the lock, closes
the active descriptor if present and sets `client_fd = -1`.  The second
component lists the descriptors passed to `close`. -/
def writer_stop (s : ConnState) : ConnState × List Int :=
  (⟨-1⟩, if 0 ≤ s.client then [s.client] else [])

/-- `wait_for_connection` (src/eventlog_socket.c lines 157-164):
`while (client_fd == -1) pthread_cond_wait(...)`.  The argument is the
sequence of values of `client_fd` observed at each evaluation of the loop
predicate (the first before any wait, the rest after each wakeup, spurious
or not).  Returns `some v` when the predicate first fails, `none` if the
observation sequence ends with the loop still waiting. -/
def wait_for_connection : List Int → Option Int
  | [] => none
  | v :: rest => if v = -1 then wait_for_connection rest else some v

/-- Producer emission status, as reported by `eventLogStatus()`. -/
inductive EventLogStatus where
  | notSupported : EventLogStatus
  | running : EventLogStatus
  | other : EventLogStatus
deriving DecidableEq

/-- Externally visible actions of `eventlog_socket_start`. -/
inductive StartAction where
  | initSync : StartAction
  | logNotSupported : StartAction
  | endLogging : StartAction
  | setTraceFlags : StartAction
  | openSocketOp : StartAction
  | logWaiting : StartAction
  | waitConn : StartAction
deriving DecidableEq

/-- `eventlog_socket_start` (src/eventlog_socket.c lines 259-290), as the list
of externally visible actions it performs.  `sockPathArg` is the `sock_path`
argument (NULL = `none`), `envPath` the value of `getenv("GHC_EVENTLOG_SOCKET")`,
`status` the producer emission status, `initialized` the C global of the same
name.  Socket creation, bind and thread spawn are all inside `openSocketOp`;
`endLogging` and `openSocketOp` (whose listener calls `startEventLogging`) are
the only actions that change the producer's emission status. -/
def eventlog_socket_start (initialized : Bool) (sockPathArg : Option String)
    (envPath : Option String) (status : EventLogStatus) (wait : Bool) :
    List StartAction :=
  let initActs := if initialized then [] else [StartAction.initSync]
  let sockPath := match sockPathArg with
    | some p => some p
    | none => envPath
  match sockPath with
  | none => initActs
  | some _ =>
    if status = EventLogStatus.notSupported then
      initActs ++ [StartAction.logNotSupported]
    else
      initActs
        ++ (if status = EventLogStatus.running then [StartAction.endLogging] else [])
        ++ [StartAction.setTraceFlags, StartAction.openSocketOp]
        ++ (if wait then [StartAction.logWaiting, StartAction.waitConn] else [])

/-- Outcome of `open_socket` (src/eventlog_socket.c lines 136-154). -/
inductive OpenOutcome where
  | aborted : OpenOutcome
  | ok : OpenOutcome
  | spawnFailLogged : OpenOutcome
deriving DecidableEq

/-- `open_socket`: creates the socket, unlinks the path, binds (abort on
failure), then spawns the listener thread with `pthread_create`; on spawn
failure it only logs an error and returns — there is no `abort()` on that
path in the source (lines 150-153). -/
def open_socket (bindOk : Bool) (spawnOk : Bool) : OpenOutcome :=
  if bindOk = false then OpenOutcome.aborted
  else if spawnOk = false then OpenOutcome.spawnFailLogged
  else OpenOutcome.ok

/-- Program points of the listener thread `listen_socket`
(src/eventlog_socket.c lines 92-134). -/
inductive LPC where
  | listenCall : LPC
  | acceptCall : LPC
  | publishFd : LPC
  | startHook : LPC
  | broadcastCond : LPC
  | pollWait : LPC
  | teardown : LPC
  | aborted : LPC
deriving DecidableEq

/-- External events driving the listener thread: outcomes of `listen`,
`accept` and `poll`, and `tick` for the internal steps. -/
inductive LEvent where
  | listenOk : LEvent
  | listenFail : LEvent
  | acceptRet : Int → LEvent
  | pollErr : LEvent
  | pollAgain : LEvent
  | pollHup : LEvent
  | tick : LEvent
deriving DecidableEq

/-- Listener thread state: the program point, the shared `client_fd` cell,
the local variable `fd` returned by `accept`, and the history field `live`
listing the descriptors published into the cell and not yet torn down
(only valid descriptors, `fd ≥ 0`, are counted as live clients). -/
structure LState where
  pc : LPC
  client : Int
  pendingFd : Int
  live : List Int
deriving DecidableEq

/-- One step of `listen_socket`.  Faithful to the loop body: `listen` (abort
on failure), `accept` into `fd`, publish `client_fd = fd` under the lock,
`startEventLogging`, `pthread_cond_broadcast`, then the `poll` loop
(`EAGAIN` retries; error or `ret > 0` breaks), then teardown
(`client_fd = -1; endEventLogging()`) and back to `listen`.  Events not
applicable at the current program point leave the state unchanged. -/
def listen_socket_step (s : LState) (e : LEvent) : LState :=
  match s.pc, e with
  | LPC.listenCall, LEvent.listenOk => { s with pc := LPC.acceptCall }
  | LPC.listenCall, LEvent.listenFail => { s with pc := LPC.aborted }
  | LPC.acceptCall, LEvent.acceptRet fd =>
      { s with pc := LPC.publishFd, pendingFd := fd }
  | LPC.publishFd, LEvent.tick =>
      { s with pc := LPC.startHook, client := s.pendingFd,
               live := s.live ++ (if 0 ≤ s.pendingFd then [s.pendingFd] else []) }
  | LPC.startHook, LEvent.tick => { s with pc := LPC.broadcastCond }
  | LPC.broadcastCond, LEvent.tick => { s with pc := LPC.pollWait }
  | LPC.pollWait, LEvent.pollErr => { s with pc := LPC.teardown }
  | LPC.pollWait, LEvent.pollHup => { s with pc := LPC.teardown }
  | LPC.pollWait, LEvent.pollAgain => s
  | LPC.teardown, LEvent.tick =>
      { s with pc := LPC.listenCall, client := -1, live := [] }
  | _, _ => s

/-- Initial listener state: at the top of the loop, no client
(`client_fd = -1` from src/eventlog_socket.c line 24). -/
def listen_socket_init : LState := ⟨LPC.listenCall, -1, -1, []⟩

/-- The listener state after processing a sequence of events. -/
def listen_socket_run (es : List LEvent) : LState :=
  es.foldl listen_socket_step listen_socket_init

/-- Invariant of the listener machine: before publication
(listen/accept/publish points) the cell is clear and no client is live;
between publication and teardown the cell holds exactly the accepted
descriptor; at teardown and after an abort, at most one client is live. -/
def LInv (s : LState) : Prop :=
  match s.pc with
  | LPC.listenCall | LPC.acceptCall | LPC.publishFd =>
      s.client = -1 ∧ s.live = []
  | LPC.startHook | LPC.broadcastCond | LPC.pollWait =>
      s.client = s.pendingFd ∧
      s.live = (if 0 ≤ s.pendingFd then [s.pendingFd] else [])
  | LPC.teardown | LPC.aborted => s.live.length ≤ 1

theorem LInv_length {s : LState} (h : LInv s) : s.live.length ≤ 1 := by
  obtain ⟨pc, client, pendingFd, live⟩ := s
  cases pc <;> simp only [LInv] at h <;>
    first
      | exact h
      | (rw [h.2]; first | (split <;> simp) | simp)

theorem LInv_step (s : LState) (e : LEvent) (h : LInv s) :
    LInv (listen_socket_step s e) := by
  obtain ⟨pc, client, pendingFd, live⟩ := s
  cases pc <;> cases e <;>
    simp only [listen_socket_step, LInv] at h ⊢ <;>
    simp_all
  all_goals (split <;> simp)

theorem LInv_foldl (es : List LEvent) :
    ∀ s : LState, LInv s → LInv (es.foldl listen_socket_step s) := by
  induction es with
  | nil => intro s h; simpa using h
  | cons e rest ih =>
      intro s h
      simpa using ih (listen_socket_step s e) (LInv_step s e h)

theorem LInv_init : LInv listen_socket_init := by
  simp [LInv, listen_socket_init]

theorem LInv_run (es : List LEvent) : LInv (listen_socket_run es) :=
  LInv_foldl es listen_socket_init LInv_init

theorem wait_for_connection_some {obs : List Int} {v : Int}
    (h : wait_for_connection obs = some v) : v ≠ -1 := by
  induction obs with
  | nil => simp [wait_for_connection] at h
  | cons a rest ih =>
      unfold wait_for_connection at h
      split at h
      · exact ih h
      · injection h with h'
        subst h'
        assumption

/-- C1: the claim says a write with a connected client delivers all `length`
bytes of the buffer IN ORDER.  The code reissues `write(fd, eventlog, sz)`
with the original buffer pointer, never advancing it, so after a partial
write the loop resends bytes from the start of the buffer.  Concretely:
client fd 5, buffer `[0, 1, 2]` of length 3, the kernel accepts 2 bytes and
then 1 byte; the socket receives `[0, 1, 0]` — three bytes, but not the
buffer's bytes in order — while the call still reports success. -/
theorem C1_short_write_resends_buffer_start :
    writer_write ⟨5⟩ [0, 1, 2] 3 [WriteRes.ok 2, WriteRes.ok 1]
      = some ⟨⟨5⟩, [0, 1, 0], 2, true⟩ ∧
    ([0, 1, 0] : List Nat) ≠ [0, 1, 2] ∧
    ([0, 1, 0] : List Nat).length = 3 := by
  decide

/-- C2: over every sequence of listener events, at most one client descriptor
is live at any instant, and whenever the listener is about to call `accept`
the previous client has been fully torn down (`client_fd = -1`, no live
descriptor). -/
theorem C2_single_active_client (es : List LEvent) :
    (listen_socket_run es).live.length ≤ 1 ∧
    ((listen_socket_run es).pc = LPC.acceptCall →
      (listen_socket_run es).client = -1 ∧ (listen_socket_run es).live = []) := by
  have h := LInv_run es
  refine ⟨LInv_length h, fun hpc => ?_⟩
  simp only [LInv, hpc] at h
  exact h

theorem C2_witness :
    (listen_socket_run [LEvent.listenOk]).live.length ≤ 1 ∧
    (listen_socket_run [LEvent.listenOk]).client = -1 ∧
    (listen_socket_run [LEvent.listenOk]).live = [] :=
  ⟨(C2_single_active_client [LEvent.listenOk]).1,
   (C2_single_active_client [LEvent.listenOk]).2 (by decide)⟩

/-- C3: a write issued while no client is connected (`client_fd < 0`) returns
success immediately: no `write` syscall is issued, nothing is delivered, the
oracle is not consulted (so the call cannot block), and the connection state
is unchanged. -/
theorem C3_write_no_client (s : ConnState) (buf : List Nat) (sz : Nat)
    (oracle : List WriteRes) (h : s.client < 0) :
    writer_write s buf sz oracle = some ⟨s, [], 0, true⟩ := by
  simp [writer_write, h]

theorem C3_witness :
    (⟨-1⟩ : ConnState).client < 0 ∧
    writer_write ⟨-1⟩ [7, 8] 2 [] = some ⟨⟨-1⟩, [], 0, true⟩ :=
  ⟨by decide, C3_write_no_client ⟨-1⟩ [7, 8] 2 [] (by decide)⟩

/-- C4 counterexample: the claim says a failing write causes the ActiveClient
descriptor to be cleared.  With client fd 5 and a `write` syscall error, the
call returns success but the connection state still holds descriptor 5 — the
write path never assigns `client_fd`. -/
theorem C4_write_error_leaves_descriptor :
    writer_write ⟨5⟩ [9] 1 [WriteRes.err]
      = some ⟨⟨5⟩, [], 1, true⟩ ∧
    (⟨5⟩ : ConnState).client ≠ -1 := by
  decide

/-- C4 amended: on a write I/O error `writer_write` drops the remainder and
reports success WITHOUT tearing down the session: the connection state is
returned unchanged on every path of `writer_write`, and the descriptor is
cleared only by `writer_stop` (invoked from the listener's teardown via
`endEventLogging`), which always leaves `client_fd = -1`. -/
theorem C4_write_error_no_teardown (s : ConnState) (buf : List Nat)
    (sz : Nat) (oracle : List WriteRes) (out : WriteOut)
    (h : writer_write s buf sz oracle = some out) :
    out.st = s ∧ out.result = true ∧ (writer_stop s).1.client = -1 := by
  have hst : out.st = s ∧ out.result = true := by
    unfold writer_write at h
    split at h
    · injection h with h'
      rw [← h']
      exact ⟨rfl, rfl⟩
    · rcases Option.map_eq_some'.mp h with ⟨p, hp, hf⟩
      rw [← hf]
      exact ⟨rfl, rfl⟩
  exact ⟨hst.1, hst.2, rfl⟩

theorem C4_write_error_no_teardown_witness :
    (⟨(⟨5⟩ : ConnState), [], 1, true⟩ : WriteOut).st = ⟨5⟩ ∧
    (⟨(⟨5⟩ : ConnState), [], 1, true⟩ : WriteOut).result = true ∧
    (writer_stop ⟨5⟩).1.client = -1 :=
  C4_write_error_no_teardown ⟨5⟩ [9] 1 [WriteRes.err] ⟨⟨5⟩, [], 1, true⟩
    (by decide)

/-- C5 counterexample: the claim says a thread-spawn failure aborts the
process; in the code (src/eventlog_socket.c lines 150-153) `pthread_create`
failure only logs an error and `open_socket` returns normally. -/
theorem C5_spawn_failure_does_not_abort :
    open_socket true false ≠ OpenOutcome.aborted := by
  decide

/-- C5 amended: bind failure and listen failure abort the process; a
thread-spawn failure only logs an error and returns, leaving the listener
never started. -/
theorem C5_setup_failures (sp : Bool) (s : LState)
    (h : s.pc = LPC.listenCall) :
    open_socket false sp = OpenOutcome.aborted ∧
    (listen_socket_step s LEvent.listenFail).pc = LPC.aborted ∧
    open_socket true false = OpenOutcome.spawnFailLogged := by
  refine ⟨rfl, ?_, rfl⟩
  obtain ⟨pc, c, p, l⟩ := s
  cases pc <;> simp_all [listen_socket_step]

theorem C5_setup_failures_witness :
    open_socket false true = OpenOutcome.aborted ∧
    (listen_socket_step listen_socket_init LEvent.listenFail).pc = LPC.aborted ∧
    open_socket true false = OpenOutcome.spawnFailLogged :=
  C5_setup_failures true listen_socket_init rfl

/-- C6: whenever the listener is at the `startEventLogging` call, the
descriptor returned by `accept` has already been published into the shared
cell (`client_fd = fd`); in particular, if the accept yielded a valid
descriptor, the cell holds a valid descriptor at the moment the start hook
runs, so a write issued after the hook observes it. -/
theorem C6_start_hook_after_publish (es : List LEvent)
    (h : (listen_socket_run es).pc = LPC.startHook) :
    (listen_socket_run es).client = (listen_socket_run es).pendingFd ∧
    (0 ≤ (listen_socket_run es).pendingFd →
      0 ≤ (listen_socket_run es).client) := by
  have hinv := LInv_run es
  simp only [LInv, h] at hinv
  exact ⟨hinv.1, fun hp => by rw [hinv.1]; exact hp⟩

theorem C6_witness :
    (listen_socket_run [LEvent.listenOk, LEvent.acceptRet 3, LEvent.tick]).pc
      = LPC.startHook ∧
    (listen_socket_run [LEvent.listenOk, LEvent.acceptRet 3, LEvent.tick]).client
      = (listen_socket_run [LEvent.listenOk, LEvent.acceptRet 3, LEvent.tick]).pendingFd :=
  ⟨by decide,
   (C6_start_hook_after_publish [LEvent.listenOk, LEvent.acceptRet 3, LEvent.tick]
      (by decide)).1⟩

/-- C7: `writer_stop` is idempotent: after any call the cell is `-1`; calling
it with no active client changes nothing and closes nothing; a second call
right after a first changes nothing and closes nothing. -/
theorem C7_stop_idempotent (s : ConnState) :
    (writer_stop s).1.client = -1 ∧
    (s.client = -1 → writer_stop s = (s, [])) ∧
    writer_stop (writer_stop s).1 = ((writer_stop s).1, []) := by
  obtain ⟨c⟩ := s
  refine ⟨rfl, fun h => ?_, show writer_stop ⟨-1⟩ = (⟨-1⟩, []) by decide⟩
  simp only at h
  subst h
  decide

theorem C7_stop_idempotent_witness :
    (writer_stop ⟨-1⟩).1.client = -1 ∧ writer_stop ⟨-1⟩ = (⟨-1⟩, []) :=
  ⟨(C7_stop_idempotent ⟨-1⟩).1, (C7_stop_idempotent ⟨-1⟩).2.1 rfl⟩

/-- C8: `wait_for_connection` returns only when the observed `client_fd` is
not `-1` (ActiveClient non-empty), and a spurious wakeup that observes
`client_fd = -1` just re-enters the wait: prepending such an observation
does not change the result. -/
theorem C8_wait_returns_connected (obs : List Int) (v : Int)
    (h : wait_for_connection obs = some v) :
    v ≠ -1 ∧ wait_for_connection ((-1) :: obs) = some v :=
  ⟨wait_for_connection_some h, by simpa [wait_for_connection] using h⟩

theorem C8_wait_returns_connected_witness :
    (5 : Int) ≠ -1 ∧ wait_for_connection [-1, 5] = some 5 :=
  C8_wait_returns_connected [5] 5 rfl

/-- C9: with no socket path argument and no environment fallback,
`eventlog_socket_start` only performs the one-time synchronization
initialization (when not yet initialized) and returns: no socket operation,
no change to the producer's emission state, no trace-flag change, and no
blocking wait. -/
theorem C9_start_no_address_no_ops (initialized : Bool)
    (status : EventLogStatus) (wait : Bool) :
    eventlog_socket_start initialized none none status wait
      = (if initialized then [] else [StartAction.initSync]) ∧
    StartAction.openSocketOp ∉ eventlog_socket_start initialized none none status wait ∧
    StartAction.endLogging ∉ eventlog_socket_start initialized none none status wait ∧
    StartAction.setTraceFlags ∉ eventlog_socket_start initialized none none status wait ∧
    StartAction.waitConn ∉ eventlog_socket_start initialized none none status wait := by
  cases initialized <;> simp [eventlog_socket_start]

/-- C10: a write of length zero returns success and issues no `write`
syscall, whatever the connection state and whatever the kernel would have
answered: the loop body is never entered when `sz = 0`. -/
theorem C10_zero_length_write (s : ConnState) (buf : List Nat)
    (oracle : List WriteRes) :
    writer_write s buf 0 oracle = some ⟨s, [], 0, true⟩ := by
  have hz : write_loop buf oracle 0 = some ([], 0) := by
    cases oracle with
    | nil => rfl
    | cons r rest => cases r <;> rfl
  unfold writer_write
  split
  · rfl
  · simp [hz]

end EventlogSocket
